import Mathlib

/-!
Verification of the `hsemulator` documentation build configuration.

The repository ships a single configuration module, `docs/conf.py`, which
binds seven top-level settings consumed by an external documentation
generator.  The module itself is embedded literally below
(`confModule`, `confDeclaration`).  The configuration loader that the
specification describes (`load`, validating a declaration into an
immutable `BuildConfiguration`) lives in the external generator, not in
this repository, so it is modelled from the specification's words.
-/

namespace HSEmulator

/-- A value bound by a top-level assignment of the configuration module:
every binding in `docs/conf.py` is either a string literal or a list of
string literals. -/
inductive ConfValue where
  | str (s : String)
  | strList (l : List String)
deriving DecidableEq, Repr

/-- The configuration module `docs/conf.py`, embedded as its ordered list of
top-level bindings, exactly as written in the source. -/
def confModule : List (String × ConfValue) :=
  [ ("project", ConfValue.str "hsemulator")
  , ("author", ConfValue.str "Morgan West")
  , ("extensions", ConfValue.strList ["myst_parser"])
  , ("myst_enable_extensions", ConfValue.strList ["colon_fence"])
  , ("templates_path", ConfValue.strList ["_templates"])
  , ("html_static_path", ConfValue.strList ["_static"])
  , ("html_theme", ConfValue.str "sphinx_rtd_theme")
  ]

/-- The raw declaration consumed by the configuration loader: a mapping-like
structure of the data-model attributes, each possibly absent. -/
structure Declaration where
  project_name : Option String
  author_name : Option String
  enabled_extensions : Option (List String)
  extension_options : Option (List (String × List String))
  template_paths : Option (List String)
  static_asset_paths : Option (List String)
  theme_name : Option String
deriving DecidableEq, Repr

/-- The validated, immutable result of loading a declaration. -/
structure BuildConfiguration where
  project_name : String
  author_name : String
  enabled_extensions : List String
  extension_options : List (String × List String)
  template_paths : List String
  static_asset_paths : List String
  theme_name : String
deriving DecidableEq, Repr

/-- The single error kind covering all validation failures of the loader. -/
inductive ConfigurationError where
  | missingProjectName
  | emptyProjectName
  | duplicateExtension
  | emptyExtensionId
  | danglingOption (key : String)
  | emptyThemeName
deriving DecidableEq, Repr

/-- Modelled from the spec: the generator-defined default theme that
`load` substitutes when the declaration omits `theme_name` (the external
generator's built-in default). -/
def defaultTheme : String := "alabaster"

/-- Modelled from the spec: the configuration loader's single operation
`load(declaration) -> BuildConfiguration`, absent from the repository
source (it belongs to the external documentation generator).
Constraints, per §4.1: `project_name` must be present and non-empty;
`enabled_extensions`, if present, must be a sequence of unique, non-empty
identifiers; `extension_options` keys must be a subset of
`enabled_extensions`; `theme_name`, if present, must be non-empty text,
else it defaults to the generator-defined default theme.  Validation
failure aborts loading entirely with a `ConfigurationError`; no partial
configuration is returned. -/
def load (d : Declaration) : Except ConfigurationError BuildConfiguration :=
  match d.project_name with
  | none => Except.error ConfigurationError.missingProjectName
  | some pname =>
    if pname = "" then Except.error ConfigurationError.emptyProjectName
    else
      let exts := d.enabled_extensions.getD []
      if exts.Nodup then
        if exts.contains "" then Except.error ConfigurationError.emptyExtensionId
        else
          let opts := d.extension_options.getD []
          match (opts.map Prod.fst).find? (fun k => !(exts.contains k)) with
          | some k => Except.error (ConfigurationError.danglingOption k)
          | none =>
            match d.theme_name with
            | some t =>
              if t = "" then Except.error ConfigurationError.emptyThemeName
              else Except.ok
                { project_name := pname
                , author_name := d.author_name.getD ""
                , enabled_extensions := exts
                , extension_options := opts
                , template_paths := d.template_paths.getD []
                , static_asset_paths := d.static_asset_paths.getD []
                , theme_name := t }
            | none => Except.ok
                { project_name := pname
                , author_name := d.author_name.getD ""
                , enabled_extensions := exts
                , extension_options := opts
                , template_paths := d.template_paths.getD []
                , static_asset_paths := d.static_asset_paths.getD []
                , theme_name := defaultTheme }
      else Except.error ConfigurationError.duplicateExtension

/-- The concrete declaration shipped in the repository, read off
`docs/conf.py`: `extensions` supplies the enabled extension list,
`myst_enable_extensions` the sub-options of the `myst_parser` extension,
and the remaining bindings the metadata, path and theme settings. -/
def confDeclaration : Declaration :=
  { project_name := some "hsemulator"
  , author_name := some "Morgan West"
  , enabled_extensions := some ["myst_parser"]
  , extension_options := some [("myst_parser", ["colon_fence"])]
  , template_paths := some ["_templates"]
  , static_asset_paths := some ["_static"]
  , theme_name := some "sphinx_rtd_theme" }

/-- The BuildConfiguration that loading the shipped declaration produces. -/
def shippedConfig : BuildConfiguration :=
  { project_name := "hsemulator"
  , author_name := "Morgan West"
  , enabled_extensions := ["myst_parser"]
  , extension_options := [("myst_parser", ["colon_fence"])]
  , template_paths := ["_templates"]
  , static_asset_paths := ["_static"]
  , theme_name := "sphinx_rtd_theme" }

/-- C1: loading the concrete declaration shipped in the repository succeeds
and returns a BuildConfiguration whose seven fields equal exactly the
declared values, with no error. -/
theorem C1_load_shipped_declaration :
    load confDeclaration = Except.ok shippedConfig := by
  rfl

/-- C3: `load` is idempotent — two calls on the same valid declaration
yield equal BuildConfiguration values. -/
theorem C3_load_idempotent (d : Declaration) (c₁ c₂ : BuildConfiguration)
    (h₁ : load d = Except.ok c₁) (h₂ : load d = Except.ok c₂) : c₁ = c₂ :=
  Except.ok.inj (h₁.symm.trans h₂)

/-- Witness for C3 at the shipped declaration. -/
theorem C3_load_idempotent_witness : shippedConfig = shippedConfig :=
  C3_load_idempotent confDeclaration shippedConfig shippedConfig rfl rfl

/-- C4: `load` is a pure, deterministic transformation of the declaration
alone — equal declarations produce equal results, with no dependence on any
environment (the model has no I/O by construction). -/
theorem C4_load_deterministic (d₁ d₂ : Declaration) (h : d₁ = d₂) :
    load d₁ = load d₂ := by
  rw [h]

/-- Witness for C4 at the shipped declaration. -/
theorem C4_load_deterministic_witness :
    load confDeclaration = load confDeclaration :=
  C4_load_deterministic confDeclaration confDeclaration rfl

/-- C2: every BuildConfiguration that `load` returns satisfies the three
data-model invariants: no duplicate enabled extensions, every
extension-option key appears among the enabled extensions, and the theme
name is non-empty. -/
theorem C2_load_invariants (d : Declaration) (c : BuildConfiguration)
    (h : load d = Except.ok c) :
    c.enabled_extensions.Nodup ∧
    (∀ k ∈ c.extension_options.map Prod.fst, k ∈ c.enabled_extensions) ∧
    c.theme_name ≠ "" := by
  unfold load at h
  repeat' split at h
  all_goals try simp_all [List.find?_eq_none, defaultTheme]
  all_goals repeat' split at h
  all_goals try simp_all [List.find?_eq_none, defaultTheme]
  all_goals subst h
  all_goals simp_all
  all_goals assumption

/-- Witness for C2 at the shipped declaration. -/
theorem C2_load_invariants_witness :
    shippedConfig.enabled_extensions.Nodup ∧
    (∀ k ∈ shippedConfig.extension_options.map Prod.fst,
      k ∈ shippedConfig.enabled_extensions) ∧
    shippedConfig.theme_name ≠ "" :=
  C2_load_invariants confDeclaration shippedConfig rfl

/-- Helper: whenever `load` succeeds, the declaration itself passed every
validation check: a present, non-empty project name; duplicate-free
enabled extensions; and extension-option keys all drawn from the enabled
extensions. -/
theorem load_ok_decl (d : Declaration) (c : BuildConfiguration)
    (h : load d = Except.ok c) :
    (∃ p, d.project_name = some p ∧ p ≠ "") ∧
    (d.enabled_extensions.getD []).Nodup ∧
    (∀ a b, (a, b) ∈ d.extension_options.getD [] →
      a ∈ d.enabled_extensions.getD []) := by
  unfold load at h
  repeat' split at h
  all_goals try simp_all [List.find?_eq_none, defaultTheme]
  all_goals repeat' split at h
  all_goals try simp_all [List.find?_eq_none, defaultTheme]
  all_goals subst h
  all_goals assumption

/-- C5: a declaration whose enabled_extensions sequence contains a
duplicate identifier makes `load` fail with a ConfigurationError. -/
theorem C5_duplicate_extension_fails (d : Declaration) (exts : List String)
    (he : d.enabled_extensions = some exts) (hdup : ¬ exts.Nodup) :
    ∃ e, load d = Except.error e := by
  cases hload : load d with
  | error e => exact ⟨e, rfl⟩
  | ok c =>
    exfalso
    have hd := (load_ok_decl d c hload).2.1
    rw [he] at hd
    exact hdup hd

/-- Witness for C5: the shipped declaration with `myst_parser` listed
twice is rejected. -/
theorem C5_duplicate_extension_fails_witness :
    ∃ e, load { confDeclaration with
      enabled_extensions := some ["myst_parser", "myst_parser"] } =
      Except.error e :=
  C5_duplicate_extension_fails _ ["myst_parser", "myst_parser"] rfl
    (by decide)

/-- C6: a declaration whose extension_options mapping contains a key
absent from enabled_extensions makes `load` fail with a
ConfigurationError, and no partial configuration is returned. -/
theorem C6_dangling_option_fails (d : Declaration)
    (opts : List (String × List String)) (k : String)
    (ho : d.extension_options = some opts)
    (hk : k ∈ opts.map Prod.fst)
    (hmem : k ∉ d.enabled_extensions.getD []) :
    (∃ e, load d = Except.error e) ∧ ∀ c, load d ≠ Except.ok c := by
  have herr : ∀ c, load d ≠ Except.ok c := by
    intro c hload
    have hd := (load_ok_decl d c hload).2.2
    rw [ho] at hd
    obtain ⟨⟨a, b⟩, hab, hfst⟩ := List.mem_map.mp hk
    exact hmem (hfst ▸ hd a b hab)
  refine ⟨?_, herr⟩
  cases hload : load d with
  | error e => exact ⟨e, rfl⟩
  | ok c => exact absurd hload (herr c)

/-- Witness for C6: the shipped declaration with options for
`other_extension`, an extension that is not enabled, is rejected. -/
theorem C6_dangling_option_fails_witness :
    (∃ e, load { confDeclaration with
      extension_options := some [("other_extension", ["colon_fence"])] } =
      Except.error e) ∧
    ∀ c, load { confDeclaration with
      extension_options := some [("other_extension", ["colon_fence"])] } ≠
      Except.ok c :=
  C6_dangling_option_fails _ [("other_extension", ["colon_fence"])]
    "other_extension" rfl (by decide) (by decide)

/-- C7: a declaration with a missing or empty project_name makes `load`
fail with a ConfigurationError, and no partial or best-effort
BuildConfiguration is ever returned. -/
theorem C7_missing_project_fails (d : Declaration)
    (h : d.project_name = none ∨ d.project_name = some "") :
    (∃ e, load d = Except.error e) ∧ ∀ c, load d ≠ Except.ok c := by
  have herr : ∀ c, load d ≠ Except.ok c := by
    intro c hload
    obtain ⟨p, hp, hpne⟩ := (load_ok_decl d c hload).1
    rcases h with h | h <;> rw [h] at hp
    · exact Option.noConfusion hp
    · exact hpne (Option.some.inj hp).symm
  refine ⟨?_, herr⟩
  cases hload : load d with
  | error e => exact ⟨e, rfl⟩
  | ok c => exact absurd hload (herr c)

/-- Witness for C7: the shipped declaration with its project name removed
is rejected. -/
theorem C7_missing_project_fails_witness :
    (∃ e, load { confDeclaration with project_name := none } =
      Except.error e) ∧
    ∀ c, load { confDeclaration with project_name := none } ≠
      Except.ok c :=
  C7_missing_project_fails _ (Or.inl rfl)

/-- C8: an otherwise valid declaration that omits theme_name loads
successfully, and the resulting theme_name is the generator-defined
default theme. -/
theorem C8_omitted_theme_defaults (d : Declaration) (pname : String)
    (hp : d.project_name = some pname) (hpe : pname ≠ "")
    (hnd : (d.enabled_extensions.getD []).Nodup)
    (hni : "" ∉ d.enabled_extensions.getD [])
    (hsub : ∀ k ∈ (d.extension_options.getD []).map Prod.fst,
      k ∈ d.enabled_extensions.getD [])
    (hth : d.theme_name = none) :
    ∃ c, load d = Except.ok c ∧ c.theme_name = defaultTheme := by
  refine ⟨{ project_name := pname, author_name := d.author_name.getD "",
            enabled_extensions := d.enabled_extensions.getD [],
            extension_options := d.extension_options.getD [],
            template_paths := d.template_paths.getD [],
            static_asset_paths := d.static_asset_paths.getD [],
            theme_name := defaultTheme }, ?_, rfl⟩
  have hcont : ¬ (d.enabled_extensions.getD []).contains "" = true := by
    simpa using hni
  have hfind : ((d.extension_options.getD []).map Prod.fst).find?
      (fun k => !((d.enabled_extensions.getD []).contains k)) = none := by
    refine List.find?_eq_none.mpr ?_
    intro x hx
    simpa using hsub x hx
  simp only [load, hp]
  rw [if_neg hpe, if_pos hnd, if_neg hcont, hfind, hth]

/-- Witness for C8: the shipped declaration with theme_name omitted loads
with the default theme. -/
theorem C8_omitted_theme_defaults_witness :
    ∃ c, load { confDeclaration with theme_name := none } = Except.ok c ∧
      c.theme_name = defaultTheme :=
  C8_omitted_theme_defaults _ "hsemulator" rfl (by decide) (by decide)
    (by decide) (by decide) rfl

/-- C9: the configuration module binds exactly the seven settings
project, author, extensions, myst_enable_extensions, templates_path,
html_static_path and html_theme, in that order, each to a string literal
or a list-of-strings literal, and no other top-level key. -/
theorem C9_module_bindings :
    confModule.map Prod.fst =
      ["project", "author", "extensions", "myst_enable_extensions",
       "templates_path", "html_static_path", "html_theme"] ∧
    confModule.length = 7 ∧
    ∀ kv ∈ confModule,
      (∃ s, kv.2 = ConfValue.str s) ∨ (∃ l, kv.2 = ConfValue.strList l) := by
  refine ⟨rfl, rfl, ?_⟩
  intro kv hkv
  fin_cases hkv <;> simp

/-- Witness for C9 at the `project` binding. -/
theorem C9_module_bindings_witness :
    (∃ s, (ConfValue.str "hsemulator") = ConfValue.str s) ∨
      (∃ l, (ConfValue.str "hsemulator") = ConfValue.strList l) :=
  C9_module_bindings.2.2 ("project", ConfValue.str "hsemulator")
    (by simp [confModule])

/-- C10: every list-valued binding of the configuration module is a
singleton list whose single element is a non-empty string. -/
theorem C10_list_settings_singleton (kv : String × ConfValue)
    (hkv : kv ∈ confModule) (l : List String)
    (hl : kv.2 = ConfValue.strList l) :
    l.length = 1 ∧ ∀ s ∈ l, s ≠ "" := by
  fin_cases hkv <;> cases hl <;> decide

/-- Witness for C10 at the `extensions` binding. -/
theorem C10_list_settings_singleton_witness :
    (["myst_parser"] : List String).length = 1 ∧
      ∀ s ∈ (["myst_parser"] : List String), s ≠ "" :=
  C10_list_settings_singleton ("extensions", ConfValue.strList ["myst_parser"])
    (by simp [confModule]) ["myst_parser"] rfl

end HSEmulator
